import Mathlib

/-!
# krb5-sync password update plugin: public API (plugin/api.c)

A shallow embedding of `plugin/api.c`.  The C functions become Lean functions
over an explicit `World` (the caller's diagnostics buffer, the number of live
Kerberos contexts, the syslog, and counters recording which library calls and
collaborators ran).  Everything the file calls but does not define (the
Kerberos library, com_err, and the two collaborators `pwupdate_ad_change` and
`pwupdate_afs_change`) is a field of `Runtime`, so every theorem quantifies
over all behaviours of those parts.

Conventions:
* a `char *` that may be NULL is an `Option String`; the `String` is the text
  before the terminating NUL, so `s[0] == '\0'` holds exactly when `s = ""`;
* C `int` values are `Int`; the values that occur (0, 1, collaborator
  statuses, library error codes) are passed through unchanged;
* an uninitialised `krb5_context` local is `none`.
-/

namespace Krb5Sync

/-! ## Data model -/

/-- Kerberos library error code (`krb5_error_code`), 0 meaning success. -/
abbrev krb5_error_code := Int

/-- Kerberos library context handle; `none` is a handle that was never
initialised, `some h` a handle returned by a successful `krb5_init_context`. -/
abbrev krb5_context := Option Nat

/-- The configuration record `struct plugin_config`: seven optional strings. -/
structure plugin_config where
  afs_srvtab : Option String
  afs_principal : Option String
  afs_realm : Option String
  ad_keytab : Option String
  ad_principal : Option String
  ad_realm : Option String
  ad_admin_server : Option String
deriving DecidableEq, Repr

/-- A Kerberos principal: a realm and the list of name components
("alice" has one component, "alice/admin" has two). -/
structure krb5_principal where
  realm : String
  components : List String
deriving DecidableEq, Repr

/-- Observable state around one API call. -/
structure World where
  /-- contents of the caller's diagnostics buffer `errstr` -/
  errstr : String
  /-- number of live Kerberos contexts -/
  live_contexts : Int
  /-- number of calls of `krb5_init_context` -/
  init_calls : Nat
  /-- number of runs of the principal filter `principal_allowed` -/
  filter_calls : Nat
  /-- number of invocations of `pwupdate_ad_change` -/
  ad_calls : Nat
  /-- number of invocations of `pwupdate_afs_change` -/
  afs_calls : Nat
  /-- number of calls of `krb5_free_context` -/
  free_calls : Nat
  /-- number of those calls that were handed an uninitialised handle -/
  wild_frees : Nat
  /-- messages sent to syslog, oldest first -/
  syslog : List String
deriving DecidableEq, Repr

/-- Signature shared by the two collaborators: configuration, context,
principal, password, password length, current buffer contents and buffer
length in; status and new buffer contents out. -/
abbrev Collaborator :=
  plugin_config → krb5_context → krb5_principal → String → Int → String → Int → Int × String

/-- Everything `api.c` calls but does not define. -/
structure Runtime where
  /-- return value of `krb5_init_context` in this call -/
  init_ret : krb5_error_code
  /-- handle stored by `krb5_init_context` when it returns 0 -/
  init_handle : Nat
  /-- com_err `error_message` -/
  error_message : krb5_error_code → String
  /-- library `krb5_unparse_name`: return code and rendered name -/
  unparse_name : krb5_context → krb5_principal → krb5_error_code × String
  /-- directory-service collaborator (plugin/ad.c) -/
  pwupdate_ad_change : Collaborator
  /-- legacy-store collaborator (plugin/afs.c) -/
  pwupdate_afs_change : Collaborator

/-! ## Library calls -/

/-- Modelled from the spec: the Kerberos library call `krb5_appdefault_string`
is not defined in this repository.  The settings source is a lookup from key
to optional string (the `krb5-sync` section of appdefaults); a setting that is
found is returned, otherwise the default is returned.  The library hands back
a fresh copy of the default, so `dup_ok` covers the case where that copy
cannot be allocated and NULL is stored instead. -/
def krb5_appdefault_string (settings : String → Option String) (dup_ok : String → Bool)
    (opt : String) (defval : String) : Option String :=
  match settings opt with
  | some v => some v
  | none => if dup_ok opt then some defval else none

/-- Conversion of an `int` argument to the `size_t` parameter of `snprintf`
(64-bit `size_t`, 2^64 = 18446744073709551616). -/
def size_t_of_int (n : Int) : Nat := (n % 18446744073709551616).toNat

/-- The call `snprintf(buf, size, "%s...", out)` seen through the buffer
contents: nothing is written when `size` is 0, otherwise the first `size - 1`
characters of the output followed by the terminator. -/
def snprintf (buf : String) (size : Nat) (out : String) : String :=
  if size = 0 then buf else String.mk (out.data.take (size - 1))

/-- The call `krb5_init_context(&ctx)`: on return code 0 a new context is live
and its handle stored; otherwise the handle is left as it was. -/
def krb5_init_context (rt : Runtime) (ctx : krb5_context) (w : World) :
    krb5_error_code × krb5_context × World :=
  if rt.init_ret = 0 then
    (0, some rt.init_handle,
      { w with init_calls := w.init_calls + 1, live_contexts := w.live_contexts + 1 })
  else
    (rt.init_ret, ctx, { w with init_calls := w.init_calls + 1 })

/-- The call `krb5_free_context(ctx)`: releases a live context; a call on an
uninitialised handle is recorded in `wild_frees`. -/
def krb5_free_context (ctx : krb5_context) (w : World) : World :=
  match ctx with
  | some _ => { w with free_calls := w.free_calls + 1, live_contexts := w.live_contexts - 1 }
  | none => { w with free_calls := w.free_calls + 1, wild_frees := w.wild_frees + 1 }

/-- The macro `krb5_princ_size(ctx, principal)`: number of name components. -/
def krb5_princ_size (_ctx : krb5_context) (principal : krb5_principal) : Int :=
  principal.components.length

/-- C logical negation `!x` of an int. -/
def lnot (x : Int) : Bool := x == 0

/-! ## plugin/api.c -/

/-- Load a string option, with NULL when the setting was not found
(`config_string`). -/
def config_string (settings : String → Option String) (dup_ok : String → Bool)
    (opt : String) : Option String :=
  let defval := ""
  let result := krb5_appdefault_string settings dup_ok opt defval
  match result with
  | some s => if s = "" then none else some s
  | none => none

/-- Initialise the module (`pwupdate_init`): status and the record stored in
`*data`; `malloc_ok` says whether the record could be allocated. -/
def pwupdate_init (settings : String → Option String) (dup_ok : String → Bool)
    (malloc_ok : Bool) : Int × Option plugin_config :=
  if malloc_ok = false then (1, none)
  else
    (0, some
      { afs_srvtab := config_string settings dup_ok "afs_srvtab"
        afs_principal := config_string settings dup_ok "afs_principal"
        afs_realm := config_string settings dup_ok "afs_realm"
        ad_keytab := config_string settings dup_ok "ad_keytab"
        ad_principal := config_string settings dup_ok "ad_principal"
        ad_realm := config_string settings dup_ok "ad_realm"
        ad_admin_server := config_string settings dup_ok "ad_admin_server" })

/-- Create a local Kerberos context (`create_context`): the int returned, the
caller's `ctx` afterwards, and the new world. -/
def create_context (rt : Runtime) (errstrlen : Int) (w : World) :
    Int × krb5_context × World :=
  match krb5_init_context rt none w with
  | (ret, ctx, w1) =>
    if ret ≠ 0 then
      let text := "failure initializing Kerberos library: " ++ rt.error_message ret
      (1, ctx, { w1 with errstr := snprintf w1.errstr (size_t_of_int errstrlen) text })
    else
      (0, ctx, w1)

/-- Check the principal (`principal_allowed`): 0 and a debug message in syslog
when it has more than one component, 1 otherwise. -/
def principal_allowed (rt : Runtime) (ctx : krb5_context) (principal : krb5_principal)
    (w : World) : Int × World :=
  let w1 := { w with filter_calls := w.filter_calls + 1 }
  if krb5_princ_size ctx principal > 1 then
    match rt.unparse_name ctx principal with
    | (ret, d) =>
      let display : Option String := if ret ≠ 0 then none else some d
      let shown := match display with
        | some s => s
        | none => "???"
      let msg := "password synchronization skipping principal \"" ++ shown ++
        "\" with non-null instance"
      (0, { w1 with syslog := w1.syslog ++ [msg] })
  else
    (1, w1)

/-- Actions before the password is changed in the local database
(`pwupdate_precommit_password`). -/
def pwupdate_precommit_password (rt : Runtime) (config : plugin_config)
    (principal : krb5_principal) (password : String) (pwlen : Int) (errstrlen : Int)
    (w : World) : Int × World :=
  if config.ad_realm = none then (0, w)
  else
    match create_context rt errstrlen w with
    | (created, ctx, w1) =>
      if lnot created then (1, w1)
      else
        match principal_allowed rt ctx principal w1 with
        | (allowed, w2) =>
          if lnot allowed then (0, w2)
          else
            match rt.pwupdate_ad_change config ctx principal password pwlen w2.errstr
                errstrlen with
            | (status, buf) =>
              (status,
                krb5_free_context ctx { w2 with errstr := buf, ad_calls := w2.ad_calls + 1 })

/-- Actions after the password is changed in the local database
(`pwupdate_postcommit_password`). -/
def pwupdate_postcommit_password (rt : Runtime) (config : plugin_config)
    (principal : krb5_principal) (password : String) (pwlen : Int) (errstrlen : Int)
    (w : World) : Int × World :=
  if config.afs_realm = none ∨ config.afs_srvtab = none ∨ config.afs_principal = none then
    (0, w)
  else
    match create_context rt errstrlen w with
    | (created, ctx, w1) =>
      if lnot created then (1, w1)
      else
        match principal_allowed rt ctx principal w1 with
        | (allowed, w2) =>
          if lnot allowed then (0, w2)
          else
            match rt.pwupdate_afs_change config ctx principal password pwlen w2.errstr
                errstrlen with
            | (status, buf) =>
              (status,
                krb5_free_context ctx { w2 with errstr := buf, afs_calls := w2.afs_calls + 1 })

/-! ## Concrete inputs used by the worked examples -/

/-- Configuration with every directory-service field set and no legacy-store
field set. -/
def cfg_ad : plugin_config :=
  { afs_srvtab := none, afs_principal := none, afs_realm := none,
    ad_keytab := some "/etc/krb5-sync.keytab", ad_principal := some "sync@EXAMPLE.COM",
    ad_realm := some "EXAMPLE.COM", ad_admin_server := some "dc1.example.com" }

/-- Configuration with the three legacy-store fields set and no
directory-service field set. -/
def cfg_afs : plugin_config :=
  { afs_srvtab := some "/etc/srvtab", afs_principal := some "sync",
    afs_realm := some "example.com", ad_keytab := none, ad_principal := none,
    ad_realm := none, ad_admin_server := none }

/-- Configuration with all seven fields set. -/
def cfg_all : plugin_config :=
  { cfg_ad with afs_srvtab := some "/etc/srvtab", afs_principal := some "sync",
                afs_realm := some "example.com" }

/-- Configuration with every field set except the directory-service realm and
the legacy-store srvtab. -/
def cfg_gapped : plugin_config :=
  { cfg_all with ad_realm := none, afs_srvtab := none }

/-- The principal "alice@EXAMPLE.COM" (one component). -/
def alice : krb5_principal := { realm := "EXAMPLE.COM", components := ["alice"] }

/-- The principal "alice/admin@EXAMPLE.COM" (two components). -/
def alice_admin : krb5_principal :=
  { realm := "EXAMPLE.COM", components := ["alice", "admin"] }

/-- A world with an empty diagnostics buffer and all counters at zero. -/
def w0 : World :=
  { errstr := "", live_contexts := 0, init_calls := 0, filter_calls := 0, ad_calls := 0,
    afs_calls := 0, free_calls := 0, wild_frees := 0, syslog := [] }

/-- Collaborator stub that succeeds and leaves the buffer alone. -/
def stub_ok : Collaborator := fun _ _ _ _ _ buf _ => (0, buf)

/-- Collaborator stub that fails after writing `msg` to the buffer. -/
def stub_fail (msg : String) : Collaborator := fun _ _ _ _ _ buf len =>
  (1, snprintf buf (size_t_of_int len) msg)

/-- Rendering of a principal used by the example runtimes. -/
def show_principal (p : krb5_principal) : String :=
  "/".intercalate p.components ++ "@" ++ p.realm

/-- Runtime in which `krb5_init_context` succeeds. -/
def rt_ok (ad afs : Collaborator) : Runtime :=
  { init_ret := 0, init_handle := 7, error_message := fun _ => "Unknown error",
    unparse_name := fun _ p => (0, show_principal p),
    pwupdate_ad_change := ad, pwupdate_afs_change := afs }

/-- Runtime in which `krb5_init_context` fails with code 12. -/
def rt_fail (ad afs : Collaborator) : Runtime :=
  { init_ret := 12, init_handle := 7,
    error_message := fun e => if e = 12 then "Cannot allocate memory" else "Unknown error",
    unparse_name := fun _ p => (0, show_principal p),
    pwupdate_ad_change := ad, pwupdate_afs_change := afs }

/-- Settings source with two settings present, one of them empty. -/
def settings_example : String → Option String := fun k =>
  if k = "ad_realm" then some "EXAMPLE.COM"
  else if k = "ad_keytab" then some ""
  else none

/-- The loader's promise for the field read from setting `key`: the field is
unset exactly when the setting is absent or the empty string, otherwise it is
the setting's value, and it never holds the empty string. -/
def field_matches_setting (settings : String → Option String) (key : String)
    (field : Option String) : Prop :=
  (field = none ↔ (settings key = none ∨ settings key = some "")) ∧
  (field = none ∨ field = settings key) ∧
  field ≠ some ""

/-! ## Helper lemmas -/

/-- When `krb5_init_context` returns 0, `create_context` returns 0, stores the
new handle and records one more live context; the buffer is not written. -/
theorem create_context_of_init_ok (rt : Runtime) (errstrlen : Int) (w : World)
    (h : rt.init_ret = 0) :
    create_context rt errstrlen w =
      (0, some rt.init_handle,
        { w with init_calls := w.init_calls + 1, live_contexts := w.live_contexts + 1 }) := by
  simp [create_context, krb5_init_context, h]

/-- When `krb5_init_context` returns a non-zero code, `create_context` returns
1, leaves the handle uninitialised and writes the failure text. -/
theorem create_context_of_init_fail (rt : Runtime) (errstrlen : Int) (w : World)
    (h : rt.init_ret ≠ 0) :
    create_context rt errstrlen w =
      (1, none,
        { w with
          init_calls := w.init_calls + 1
          errstr := snprintf w.errstr (size_t_of_int errstrlen)
            ("failure initializing Kerberos library: " ++ rt.error_message rt.init_ret) }) := by
  simp [create_context, krb5_init_context, h]

/-- With the directory-service realm set and a successful `krb5_init_context`,
precommit returns 1 right after `create_context`. -/
theorem precommit_of_init_ok (rt : Runtime) (config : plugin_config)
    (principal : krb5_principal) (password : String) (pwlen errstrlen : Int) (w : World)
    (hen : config.ad_realm ≠ none) (h : rt.init_ret = 0) :
    pwupdate_precommit_password rt config principal password pwlen errstrlen w =
      (1, { w with init_calls := w.init_calls + 1, live_contexts := w.live_contexts + 1 }) := by
  simp [pwupdate_precommit_password, hen, create_context_of_init_ok rt errstrlen w h, lnot]

/-- With the three legacy-store fields set and a successful
`krb5_init_context`, postcommit returns 1 right after `create_context`. -/
theorem postcommit_of_init_ok (rt : Runtime) (config : plugin_config)
    (principal : krb5_principal) (password : String) (pwlen errstrlen : Int) (w : World)
    (hen : config.afs_realm ≠ none ∧ config.afs_srvtab ≠ none ∧ config.afs_principal ≠ none)
    (h : rt.init_ret = 0) :
    pwupdate_postcommit_password rt config principal password pwlen errstrlen w =
      (1, { w with init_calls := w.init_calls + 1, live_contexts := w.live_contexts + 1 }) := by
  simp [pwupdate_postcommit_password, hen.1, hen.2.1, hen.2.2,
    create_context_of_init_ok rt errstrlen w h, lnot]

/-- Whatever the configuration, a call of precommit in which
`krb5_init_context` succeeds leaves both collaborator counters unchanged. -/
theorem precommit_counts_of_init_ok (rt : Runtime) (config : plugin_config)
    (principal : krb5_principal) (password : String) (pwlen errstrlen : Int) (w : World)
    (h : rt.init_ret = 0) :
    (pwupdate_precommit_password rt config principal password pwlen errstrlen w).2.ad_calls
        = w.ad_calls ∧
    (pwupdate_precommit_password rt config principal password pwlen errstrlen w).2.afs_calls
        = w.afs_calls := by
  by_cases hen : config.ad_realm = none
  · simp [pwupdate_precommit_password, hen]
  · simp [precommit_of_init_ok rt config principal password pwlen errstrlen w hen h]

/-- Whatever the configuration, a call of postcommit in which
`krb5_init_context` succeeds leaves both collaborator counters unchanged. -/
theorem postcommit_counts_of_init_ok (rt : Runtime) (config : plugin_config)
    (principal : krb5_principal) (password : String) (pwlen errstrlen : Int) (w : World)
    (h : rt.init_ret = 0) :
    (pwupdate_postcommit_password rt config principal password pwlen errstrlen w).2.ad_calls
        = w.ad_calls ∧
    (pwupdate_postcommit_password rt config principal password pwlen errstrlen w).2.afs_calls
        = w.afs_calls := by
  by_cases hen : config.afs_realm = none ∨ config.afs_srvtab = none ∨ config.afs_principal = none
  · simp [pwupdate_postcommit_password, hen]
  · have hen2 : config.afs_realm ≠ none ∧ config.afs_srvtab ≠ none ∧
        config.afs_principal ≠ none := by
      refine ⟨fun h1 => hen (Or.inl h1), fun h2 => hen (Or.inr (Or.inl h2)),
        fun h3 => hen (Or.inr (Or.inr h3))⟩
    simp [postcommit_of_init_ok rt config principal password pwlen errstrlen w hen2 h]

/-! ## Feature gates (C4, C5) -/

/-- C4: when the directory-service realm `ad_realm` is unset, precommit
returns 0 and the world after the call is the world before it: no Kerberos
context is opened, the principal filter does not run, no collaborator is
invoked and the diagnostics buffer is not written, whatever the other
configuration fields, the principal, the password and the runtime. -/
theorem precommit_disabled_is_noop (rt : Runtime) (config : plugin_config)
    (principal : krb5_principal) (password : String) (pwlen errstrlen : Int) (w : World)
    (h : config.ad_realm = none) :
    pwupdate_precommit_password rt config principal password pwlen errstrlen w = (0, w) := by
  simp [pwupdate_precommit_password, h]

/-- Witness for C4: a configuration with every field but `ad_realm` and
`afs_srvtab` set, under a runtime whose context creation would fail. -/
theorem precommit_disabled_is_noop_witness :
    cfg_gapped.ad_realm = none ∧
    pwupdate_precommit_password (rt_fail (stub_fail "ldap bind refused") stub_ok) cfg_gapped
      alice "newpass" 7 256 w0 = (0, w0) :=
  ⟨rfl, precommit_disabled_is_noop _ _ _ _ _ _ _ rfl⟩

/-- C5: when at least one of `afs_realm`, `afs_srvtab`, `afs_principal` is
unset, postcommit returns 0 and the world after the call is the world before
it: no context opened, no filter run, no collaborator invoked, buffer
unchanged, whatever the directory-service fields. -/
theorem postcommit_disabled_is_noop (rt : Runtime) (config : plugin_config)
    (principal : krb5_principal) (password : String) (pwlen errstrlen : Int) (w : World)
    (h : config.afs_realm = none ∨ config.afs_srvtab = none ∨ config.afs_principal = none) :
    pwupdate_postcommit_password rt config principal password pwlen errstrlen w = (0, w) := by
  simp [pwupdate_postcommit_password, h]

/-- Witness for C5: only `afs_srvtab` of the three legacy-store fields is
unset. -/
theorem postcommit_disabled_is_noop_witness :
    (cfg_gapped.afs_realm = none ∨ cfg_gapped.afs_srvtab = none ∨
      cfg_gapped.afs_principal = none) ∧
    pwupdate_postcommit_password (rt_ok stub_ok (stub_fail "kaserver down")) cfg_gapped
      alice "newpass" 7 256 w0 = (0, w0) :=
  ⟨Or.inr (Or.inl rfl), postcommit_disabled_is_noop _ _ _ _ _ _ _ (Or.inr (Or.inl rfl))⟩

/-! ## Configuration loader (C9) -/

/-- Each call of `config_string` yields a field that matches its setting. -/
theorem config_string_matches (settings : String → Option String) (dup_ok : String → Bool)
    (key : String) :
    field_matches_setting settings key (config_string settings dup_ok key) := by
  unfold field_matches_setting config_string krb5_appdefault_string
  cases hs : settings key with
  | none => cases hd : dup_ok key <;> simp
  | some v => by_cases hv : v = "" <;> simp [hv]

/-- C9: for every settings source, whenever the record can be allocated,
`pwupdate_init` returns 0 and stores a configuration in which each of the
seven fields is read from the setting of the same name: it is unset exactly
when that setting is absent or empty, otherwise it equals the setting's
value, and it never holds the empty string.  Missing settings do not make
init fail. -/
theorem pwupdate_init_normalises (settings : String → Option String)
    (dup_ok : String → Bool) :
    ∃ cfg : plugin_config,
      pwupdate_init settings dup_ok true = (0, some cfg) ∧
      field_matches_setting settings "afs_srvtab" cfg.afs_srvtab ∧
      field_matches_setting settings "afs_principal" cfg.afs_principal ∧
      field_matches_setting settings "afs_realm" cfg.afs_realm ∧
      field_matches_setting settings "ad_keytab" cfg.ad_keytab ∧
      field_matches_setting settings "ad_principal" cfg.ad_principal ∧
      field_matches_setting settings "ad_realm" cfg.ad_realm ∧
      field_matches_setting settings "ad_admin_server" cfg.ad_admin_server :=
  ⟨_, rfl, config_string_matches _ _ _, config_string_matches _ _ _,
    config_string_matches _ _ _, config_string_matches _ _ _, config_string_matches _ _ _,
    config_string_matches _ _ _, config_string_matches _ _ _⟩

/-! ## The negated test of `create_context` (C10) -/

/-- C10: `create_context` returns 0 on success and the callers test it with
`!`.  So with the feature enabled and `krb5_init_context` succeeding, precommit
and postcommit return 1 at once: the only changes to the world are the
`krb5_init_context` call and the context it left live (no filter run, no
collaborator call, no buffer write, no free).  Consequently, if a call of
either function changes a collaborator counter, context creation failed in
that call. -/
theorem create_context_test_negated (rt : Runtime) (config : plugin_config)
    (principal : krb5_principal) (password : String) (pwlen errstrlen : Int) (w : World) :
    (config.ad_realm ≠ none → rt.init_ret = 0 →
      pwupdate_precommit_password rt config principal password pwlen errstrlen w =
        (1, { w with init_calls := w.init_calls + 1,
                     live_contexts := w.live_contexts + 1 })) ∧
    (config.afs_realm ≠ none ∧ config.afs_srvtab ≠ none ∧ config.afs_principal ≠ none →
      rt.init_ret = 0 →
      pwupdate_postcommit_password rt config principal password pwlen errstrlen w =
        (1, { w with init_calls := w.init_calls + 1,
                     live_contexts := w.live_contexts + 1 })) ∧
    ((pwupdate_precommit_password rt config principal password pwlen errstrlen w).2.ad_calls
          ≠ w.ad_calls ∨
      (pwupdate_precommit_password rt config principal password pwlen errstrlen w).2.afs_calls
          ≠ w.afs_calls ∨
      (pwupdate_postcommit_password rt config principal password pwlen errstrlen w).2.ad_calls
          ≠ w.ad_calls ∨
      (pwupdate_postcommit_password rt config principal password pwlen errstrlen w).2.afs_calls
          ≠ w.afs_calls →
      rt.init_ret ≠ 0) := by
  refine ⟨precommit_of_init_ok rt config principal password pwlen errstrlen w,
    postcommit_of_init_ok rt config principal password pwlen errstrlen w, ?_⟩
  intro hcalls hok
  have hpre := precommit_counts_of_init_ok rt config principal password pwlen errstrlen w hok
  have hpost := postcommit_counts_of_init_ok rt config principal password pwlen errstrlen w hok
  rcases hcalls with h1 | h2 | h3 | h4
  · exact h1 hpre.1
  · exact h2 hpre.2
  · exact h3 hpost.1
  · exact h4 hpost.2

/-- Witness for C10: with all seven fields set and context creation
succeeding, both functions return 1 with only the context opened; with context
creation failing, the legacy-store collaborator is invoked by postcommit. -/
theorem create_context_test_negated_witness :
    pwupdate_precommit_password (rt_ok stub_ok stub_ok) cfg_all alice "newpass" 7 256 w0 =
      (1, { w0 with init_calls := w0.init_calls + 1,
                    live_contexts := w0.live_contexts + 1 }) ∧
    pwupdate_postcommit_password (rt_ok stub_ok stub_ok) cfg_all alice "newpass" 7 256 w0 =
      (1, { w0 with init_calls := w0.init_calls + 1,
                    live_contexts := w0.live_contexts + 1 }) ∧
    (pwupdate_postcommit_password (rt_fail stub_ok stub_ok) cfg_all alice "newpass" 7 256
      w0).2.afs_calls = 1 ∧
    (rt_fail stub_ok stub_ok).init_ret ≠ 0 :=
  ⟨(create_context_test_negated (rt_ok stub_ok stub_ok) cfg_all alice "newpass" 7 256 w0).1
      (by decide) rfl,
    (create_context_test_negated (rt_ok stub_ok stub_ok) cfg_all alice "newpass" 7 256 w0).2.1
      (by decide) rfl,
    by decide,
    (create_context_test_negated (rt_fail stub_ok stub_ok) cfg_all alice "newpass" 7 256
      w0).2.2 (Or.inr (Or.inr (Or.inr (by decide))))⟩

/-! ## Runs of the code where it departs from its documented behaviour

The comment on `create_context` says it returns true on success and false
otherwise, and both callers test it that way (`if (!create_context(...))
return 1;`), but the body returns 0 on success and 1 on failure.  The runs
below evaluate the code on concrete inputs. -/

/-- C1 (code run): directory-service fields all set, principal "alice",
context creation succeeds.  With a collaborator that would return 0, and with
one that would fail with "ldap bind refused", precommit returns 1, the
collaborator is never invoked, the buffer stays empty and the context stays
live. -/
theorem precommit_enabled_never_delegates :
    pwupdate_precommit_password (rt_ok stub_ok stub_ok) cfg_ad alice "newpass" 7 256 w0 =
      (1, { w0 with init_calls := 1, live_contexts := 1 }) ∧
    pwupdate_precommit_password (rt_ok (stub_fail "ldap bind refused") stub_ok) cfg_ad alice
      "newpass" 7 256 w0 =
      (1, { w0 with init_calls := 1, live_contexts := 1 }) := by
  decide

/-- C2 (code run): legacy-store fields all set, principal "alice", context
creation succeeds, collaborator would return 0.  Postcommit returns 1 and the
legacy-store collaborator is invoked zero times. -/
theorem postcommit_enabled_never_delegates :
    pwupdate_postcommit_password (rt_ok stub_ok stub_ok) cfg_afs alice "newpass" 7 256 w0 =
      (1, { w0 with init_calls := 1, live_contexts := 1 }) ∧
    (pwupdate_postcommit_password (rt_ok stub_ok stub_ok) cfg_afs alice "newpass" 7 256
      w0).2.afs_calls = 0 := by
  decide

/-- C3 (code run): all seven fields set, principal "alice/admin", context
creation succeeds.  Both precommit and postcommit return 1 (not 0); no
collaborator is invoked and the principal filter is not reached. -/
theorem instance_principal_gets_status_1 :
    pwupdate_precommit_password (rt_ok stub_ok stub_ok) cfg_all alice_admin "newpass" 7 256
      w0 = (1, { w0 with init_calls := 1, live_contexts := 1 }) ∧
    pwupdate_postcommit_password (rt_ok stub_ok stub_ok) cfg_all alice_admin "newpass" 7 256
      w0 = (1, { w0 with init_calls := 1, live_contexts := 1 }) := by
  decide

/-- C6 (code run): all seven fields set, `krb5_init_context` fails with code
12.  For "alice/admin" precommit writes the failure text, runs the principal
filter and returns 0.  For "alice" postcommit writes the failure text, runs
the filter, invokes the legacy-store collaborator with the uninitialised
context, frees that handle, and returns the collaborator's 0. -/
theorem context_failure_falls_through :
    pwupdate_precommit_password (rt_fail stub_ok stub_ok) cfg_all alice_admin "newpass" 7 256
      w0 =
      (0, { w0 with
            errstr := "failure initializing Kerberos library: Cannot allocate memory"
            init_calls := 1
            filter_calls := 1
            syslog := ["password synchronization skipping principal " ++
              "\"alice/admin@EXAMPLE.COM\" with non-null instance"] }) ∧
    pwupdate_postcommit_password (rt_fail stub_ok stub_ok) cfg_all alice "newpass" 7 256 w0 =
      (0, { w0 with
            errstr := "failure initializing Kerberos library: Cannot allocate memory"
            init_calls := 1
            filter_calls := 1
            afs_calls := 1
            free_calls := 1
            wild_frees := 1 }) := by
  decide

/-- C7 (code run): feature enabled, principal "alice", context creation
succeeds.  Each of precommit and postcommit returns with one more live context
than before the call and without any call of `krb5_free_context`. -/
theorem context_left_live_on_success :
    (pwupdate_precommit_password (rt_ok stub_ok stub_ok) cfg_ad alice "newpass" 7 256
      w0).2.live_contexts = w0.live_contexts + 1 ∧
    (pwupdate_precommit_password (rt_ok stub_ok stub_ok) cfg_ad alice "newpass" 7 256
      w0).2.free_calls = w0.free_calls ∧
    (pwupdate_postcommit_password (rt_ok stub_ok stub_ok) cfg_afs alice "newpass" 7 256
      w0).2.live_contexts = w0.live_contexts + 1 ∧
    (pwupdate_postcommit_password (rt_ok stub_ok stub_ok) cfg_afs alice "newpass" 7 256
      w0).2.free_calls = w0.free_calls := by
  decide

/-- C8 (code run): directory-service fields set, principal "alice/admin",
`krb5_init_context` fails with code 12; no collaborator is invoked.  Precommit
returns 0 although the buffer, empty before the call, now holds the context
failure text.  The same happens for "alice" when the collaborator returns 0
without writing the buffer. -/
theorem buffer_written_on_zero_return :
    w0.errstr = "" ∧
    (pwupdate_precommit_password (rt_fail stub_ok stub_ok) cfg_ad alice_admin "newpass" 7 256
      w0).1 = 0 ∧
    (pwupdate_precommit_password (rt_fail stub_ok stub_ok) cfg_ad alice_admin "newpass" 7 256
      w0).2.errstr = "failure initializing Kerberos library: Cannot allocate memory" ∧
    (pwupdate_precommit_password (rt_fail stub_ok stub_ok) cfg_ad alice_admin "newpass" 7 256
      w0).2.ad_calls = 0 ∧
    (pwupdate_precommit_password (rt_fail stub_ok stub_ok) cfg_ad alice "newpass" 7 256
      w0).1 = 0 ∧
    (pwupdate_precommit_password (rt_fail stub_ok stub_ok) cfg_ad alice "newpass" 7 256
      w0).2.errstr = "failure initializing Kerberos library: Cannot allocate memory" := by
  decide

end Krb5Sync
